import Mathlib

/-!
Verification of the perf.data → processed-profile converter
(`src/main.rs`) against its natural-language specification.

The Rust code is shallowly embedded: `u64` values become `Nat` with
explicit wrapping (`% 2^64`) where the source performs machine
arithmetic, `i32` values become `Int` with explicit 32-bit wrapping,
fallible paths become `Option`/`Except`.  Every definition mirrors a
function or code region of `src/main.rs`; definitions whose name ends
in `_claim` or `_spec` instead follow the specification's words, for
comparison with the embedded code.
-/

namespace PerfConvert

/-! ## Machine arithmetic (u64 / i32) -/

/-- The modulus of 64-bit machine words. -/
def U64MOD : Nat := 2 ^ 64

/-- Wrapping 64-bit addition, as Rust `u64` addition in release mode. -/
def wadd (a b : Nat) : Nat := (a + b) % U64MOD

/-- Wrapping 64-bit subtraction, as Rust `u64` subtraction in release mode. -/
def wsub (a b : Nat) : Nat := (a % U64MOD + (U64MOD - b % U64MOD)) % U64MOD

theorem wadd_eq (a b : Nat) (h : a + b < U64MOD) : wadd a b = a + b := by
  unfold wadd; exact Nat.mod_eq_of_lt h

theorem wsub_eq (a b : Nat) (ha : a < U64MOD) (hb : b < U64MOD) (hba : b ≤ a) :
    wsub a b = a - b := by
  unfold wsub
  rw [Nat.mod_eq_of_lt ha, Nat.mod_eq_of_lt hb]
  have h1 : a + (U64MOD - b) = U64MOD + (a - b) := by omega
  rw [h1, Nat.add_mod_left]
  exact Nat.mod_eq_of_lt (by omega)

/-- `i32::try_from(n).unwrap_or(0)` on a nonnegative 64-bit value. -/
def i32_try_from_or_zero (n : Nat) : Int :=
  if n ≤ 2147483647 then (n : Int) else 0

/-- Wrapping of an integer into the `i32` range. -/
def wrap32 (x : Int) : Int := (x + 2 ^ 31) % 2 ^ 32 - 2 ^ 31

theorem wrap32_eq (x : Int) (h0 : 0 ≤ x) (h1 : x < 2 ^ 31) : wrap32 x = x := by
  unfold wrap32
  rw [Int.emod_eq_of_lt (by omega) (by omega)]
  omega

/-! ## perf context-marker constants

`linux_perf_event_reader::constants` re-exports the Linux UAPI
`PERF_CONTEXT_*` sentinels, which are small negative numbers cast to
`u64`. -/

def PERF_CONTEXT_KERNEL : Nat := U64MOD - 128
def PERF_CONTEXT_USER : Nat := U64MOD - 512
def PERF_CONTEXT_GUEST : Nat := U64MOD - 2048
def PERF_CONTEXT_GUEST_KERNEL : Nat := U64MOD - 2176
def PERF_CONTEXT_GUEST_USER : Nat := U64MOD - 2560
def PERF_CONTEXT_MAX : Nat := U64MOD - 4095

/-! ## Stack frame model (`StackFrame`, `StackMode`, `CpuMode`) -/

/-- `StackMode` from `src/main.rs`. -/
inductive StackMode where
  | User
  | Kernel
deriving DecidableEq, Repr

/-- `CpuMode` from `linux_perf_event_reader` (the recorded privilege
level of a sample). -/
inductive CpuMode where
  | Unknown
  | Kernel
  | User
  | Hypervisor
  | GuestKernel
  | GuestUser
deriving DecidableEq, Repr

/-- `StackFrame` from `src/main.rs`. -/
inductive StackFrame where
  | InstructionPointer (addr : Nat) (mode : StackMode)
  | ReturnAddress (addr : Nat) (mode : StackMode)
  | TruncatedStackMarker
deriving DecidableEq, Repr

/-- `StackMode::from_context_frame` (src/main.rs lines 971-977). -/
def StackMode.from_context_frame (frame : Nat) : Option StackMode :=
  if frame = PERF_CONTEXT_KERNEL ∨ frame = PERF_CONTEXT_GUEST_KERNEL then
    some .Kernel
  else if frame = PERF_CONTEXT_USER ∨ frame = PERF_CONTEXT_GUEST ∨
      frame = PERF_CONTEXT_GUEST_USER then
    some .User
  else
    none

/-- `impl From<CpuMode> for StackMode` (src/main.rs lines 980-988). -/
def StackMode.ofCpuMode (cpu_mode : CpuMode) : StackMode :=
  match cpu_mode with
  | .Kernel | .GuestKernel => .Kernel
  | _ => .User

/-! ## Stack reconstructor, callchain phase
(`Converter::get_sample_stack`, src/main.rs lines 480-501) -/

/-- The callchain loop of `get_sample_stack`: iterate the callchain
words carrying the `is_first_frame` flag and the current mode. -/
def callchain_frames : List Nat → Bool → StackMode → List StackFrame
  | [], _, _ => []
  | address :: rest, is_first_frame, mode =>
    if PERF_CONTEXT_MAX ≤ address then
      -- `if let Some(new_mode) = from_context_frame(address) { mode = new_mode }`
      callchain_frames rest is_first_frame
        ((StackMode.from_context_frame address).getD mode)
    else
      (if is_first_frame then StackFrame.InstructionPointer address mode
       else StackFrame.ReturnAddress address mode) ::
        callchain_frames rest false mode

/-- The callchain phase of `get_sample_stack`: when a callchain is
present, run the loop with `is_first_frame = true` and the initial mode
derived from the sample's recorded CPU mode; otherwise produce no
frames. -/
def get_sample_stack_callchain (callchain : Option (List Nat))
    (cpu_mode : CpuMode) : List StackFrame :=
  match callchain with
  | some chain => callchain_frames chain true (StackMode.ofCpuMode cpu_mode)
  | none => []

/-- The five context markers named by the specification. -/
def contextMarkers : List Nat :=
  [PERF_CONTEXT_USER, PERF_CONTEXT_KERNEL, PERF_CONTEXT_GUEST,
   PERF_CONTEXT_GUEST_USER, PERF_CONTEXT_GUEST_KERNEL]

/-- The callchain iteration as the specification words it: a word
`≥ PERF_CONTEXT_MAX` updates the mode when it is one of the five named
markers and is otherwise ignored; a word below the sentinel is emitted
as `InstructionPointer` when it is the first real frame and as
`ReturnAddress` otherwise, tagged with the current mode. -/
def callchain_frames_claim : List Nat → Bool → StackMode → List StackFrame
  | [], _, _ => []
  | w :: rest, is_first, mode =>
    if PERF_CONTEXT_MAX ≤ w then
      let mode' :=
        if w ∈ contextMarkers then
          (StackMode.from_context_frame w).getD mode
        else mode
      callchain_frames_claim rest is_first mode'
    else
      (if is_first then StackFrame.InstructionPointer w mode
       else StackFrame.ReturnAddress w mode) ::
        callchain_frames_claim rest false mode

theorem from_context_frame_isSome_iff (w : Nat) :
    (StackMode.from_context_frame w).isSome = true ↔ w ∈ contextMarkers := by
  unfold StackMode.from_context_frame contextMarkers
  by_cases h1 : w = PERF_CONTEXT_KERNEL ∨ w = PERF_CONTEXT_GUEST_KERNEL
  · simp [h1]
    rcases h1 with h | h <;> simp [h]
  · by_cases h2 : w = PERF_CONTEXT_USER ∨ w = PERF_CONTEXT_GUEST ∨
        w = PERF_CONTEXT_GUEST_USER
    · simp [h1, h2]
      rcases h2 with h | h | h <;> simp [h]
    · simp [h1, h2]
      push_neg at h1 h2
      simp [h1.1, h1.2, h2.1, h2.2.1, h2.2.2]

theorem callchain_frames_eq_claim (chain : List Nat) (b : Bool) (m : StackMode) :
    callchain_frames chain b m = callchain_frames_claim chain b m := by
  induction chain generalizing b m with
  | nil => rfl
  | cons w rest ih =>
    unfold callchain_frames callchain_frames_claim
    by_cases hw : PERF_CONTEXT_MAX ≤ w
    · simp only [hw, if_true]
      by_cases hmem : w ∈ contextMarkers
      · simp [hmem, ih]
      · have hnone : StackMode.from_context_frame w = none := by
          by_contra hne
          have : (StackMode.from_context_frame w).isSome = true := by
            match h : StackMode.from_context_frame w with
            | some _ => rfl
            | none => exact absurd h hne
          exact hmem ((from_context_frame_isSome_iff w).mp this)
        simp [hnone, hmem, ih]
    · simp only [hw, if_false]
      cases b <;> simp [ih]

/-- Every frame produced by the callchain loop is a real frame: an
`InstructionPointer` or `ReturnAddress` whose address is below
`PERF_CONTEXT_MAX`. -/
theorem callchain_frames_all_below_max (chain : List Nat) (b : Bool)
    (m : StackMode) (f : StackFrame) (hf : f ∈ callchain_frames chain b m) :
    ∃ a md, (f = StackFrame.InstructionPointer a md ∨
      f = StackFrame.ReturnAddress a md) ∧ a < PERF_CONTEXT_MAX := by
  induction chain generalizing b m with
  | nil => simp [callchain_frames] at hf
  | cons w rest ih =>
    unfold callchain_frames at hf
    by_cases hw : PERF_CONTEXT_MAX ≤ w
    · simp only [hw, if_true] at hf
      exact ih _ _ hf
    · simp only [hw, if_false, List.mem_cons] at hf
      rcases hf with hf | hf
      · cases b <;> simp at hf <;>
          exact ⟨w, m, by simp [hf], Nat.lt_of_not_le hw⟩
      · exact ih _ _ hf

/-! ## Timestamp converter (`TimestampConverter`, src/main.rs lines 785-797) -/

/-- `TimestampConverter::convert_time`: `ktime_ns.saturating_sub(reference_ns)`,
which is exactly truncated `Nat` subtraction. -/
def convert_time (reference_ns ktime_ns : Nat) : Nat := ktime_ns - reference_ns

/-! ## Sample emission per thread
(`Converter::handle_sample`, src/main.rs lines 360-426)

For one thread, `handle_sample` compares the incoming timestamp with
`thread.last_sample_timestamp`; on equality the sample is dropped
(early return, `last_sample_timestamp` unchanged), otherwise a sample
is emitted and `last_sample_timestamp` is set to the timestamp. -/

/-- The input timestamps of the samples a single thread emits, given the
thread's current `last_sample_timestamp` and the incoming per-thread
sample timestamps in arrival order. -/
def emitted_sample_times : Option Nat → List Nat → List Nat
  | _, [] => []
  | last, ts :: rest =>
    if last = some ts then emitted_sample_times last rest
    else ts :: emitted_sample_times (some ts) rest

theorem emitted_sample_times_sublist (last : Option Nat) (l : List Nat) :
    List.Sublist (emitted_sample_times last l) l := by
  induction l generalizing last with
  | nil => simp [emitted_sample_times]
  | cons ts rest ih =>
    unfold emitted_sample_times
    by_cases h : last = some ts
    · simp only [h, if_true]
      exact (ih (some ts)).cons ts
    · simp only [h, if_false]
      exact (ih (some ts)).cons₂ ts

/-- C1: for a sample whose callchain is present, the stack reconstructor
iterates the callchain in order exactly as the specification describes —
words `≥ PERF_CONTEXT_MAX` are context markers that update the mode when
they name one of `{USER, KERNEL, GUEST, GUEST_USER, GUEST_KERNEL}` and
are otherwise ignored, never emitted; words below the sentinel are
appended as `InstructionPointer` for the first real frame and
`ReturnAddress` afterwards, tagged with the current mode; and the
initial mode is derived from the sample's recorded CPU mode. -/
theorem C1_callchain_iteration :
    ∀ (chain : List Nat) (cpu_mode : CpuMode),
      get_sample_stack_callchain (some chain) cpu_mode =
        callchain_frames_claim chain true (StackMode.ofCpuMode cpu_mode) ∧
      ∀ f ∈ get_sample_stack_callchain (some chain) cpu_mode,
        ∃ a md, (f = StackFrame.InstructionPointer a md ∨
          f = StackFrame.ReturnAddress a md) ∧ a < PERF_CONTEXT_MAX := by
  intro chain cpu_mode
  constructor
  · exact callchain_frames_eq_claim chain true (StackMode.ofCpuMode cpu_mode)
  · intro f hf
    exact callchain_frames_all_below_max chain true _ f hf

/-- Witness for C1 at a concrete callchain: a kernel frame, a context
switch to user mode, then a user frame. -/
theorem C1_callchain_iteration_witness :
    get_sample_stack_callchain
        (some [4096, PERF_CONTEXT_USER, 8192]) CpuMode.Kernel =
      callchain_frames_claim [4096, PERF_CONTEXT_USER, 8192] true
        (StackMode.ofCpuMode CpuMode.Kernel) ∧
    (∃ a md, (StackFrame.InstructionPointer 4096 StackMode.Kernel =
        StackFrame.InstructionPointer a md ∨
      StackFrame.InstructionPointer 4096 StackMode.Kernel =
        StackFrame.ReturnAddress a md) ∧ a < PERF_CONTEXT_MAX) ∧
    get_sample_stack_callchain
        (some [4096, PERF_CONTEXT_USER, 8192]) CpuMode.Kernel =
      [StackFrame.InstructionPointer 4096 StackMode.Kernel,
       StackFrame.ReturnAddress 8192 StackMode.User] := by
  refine ⟨(C1_callchain_iteration [4096, PERF_CONTEXT_USER, 8192] CpuMode.Kernel).1,
    (C1_callchain_iteration [4096, PERF_CONTEXT_USER, 8192] CpuMode.Kernel).2
      (StackFrame.InstructionPointer 4096 StackMode.Kernel) (by decide), by decide⟩

/-- C2 as stated is false on the code: two sample records for the same
thread with strictly decreasing timestamps are both emitted (only exact
equality with the last emitted timestamp is dropped), so per-thread
emitted timestamps are not always non-decreasing. -/
theorem C2_counterexample :
    emitted_sample_times none [5, 3] = [5, 3] ∧
    ¬ (emitted_sample_times none [5, 3]).Chain' (· ≤ ·) := by
  constructor
  · rfl
  · have h : emitted_sample_times none [5, 3] = [5, 3] := rfl
    rw [h]
    norm_num [List.chain'_cons, List.chain'_singleton]

/-- C2 (amended): `handle_sample` drops a sample whose timestamp equals
the thread's last emitted sample timestamp, so two consecutive sample
records for the same thread with the same timestamp produce exactly one
emitted sample; and per thread the emitted timestamps (input and
profile-converted) are non-decreasing whenever that thread's input
sample timestamps are non-decreasing. -/
theorem C2_duplicate_suppression :
    (∀ (last : Option Nat) (ts : Nat) (rest : List Nat), last ≠ some ts →
      emitted_sample_times last (ts :: ts :: rest) =
        ts :: emitted_sample_times (some ts) rest) ∧
    (∀ (last : Option Nat) (l : List Nat), l.Chain' (· ≤ ·) →
      (emitted_sample_times last l).Chain' (· ≤ ·)) ∧
    (∀ (ref : Nat) (last : Option Nat) (l : List Nat), l.Chain' (· ≤ ·) →
      ((emitted_sample_times last l).map (convert_time ref)).Chain' (· ≤ ·)) := by
  have hmono : ∀ (last : Option Nat) (l : List Nat), l.Chain' (· ≤ ·) →
      (emitted_sample_times last l).Chain' (· ≤ ·) := by
    intro last l hl
    exact List.Chain'.sublist hl (emitted_sample_times_sublist last l)
  refine ⟨?_, hmono, ?_⟩
  · intro last ts rest hne
    simp [emitted_sample_times, hne]
  · intro ref last l hl
    rw [List.chain'_map]
    exact (hmono last l hl).imp (fun a b h => Nat.sub_le_sub_right h ref)

/-- Witness for C2: a duplicated timestamp collapses to one emitted
sample, and a non-decreasing input stays non-decreasing. -/
theorem C2_duplicate_suppression_witness :
    emitted_sample_times none (7 :: 7 :: [9]) =
      7 :: emitted_sample_times (some 7) [9] ∧
    (emitted_sample_times none [3, 3, 8]).Chain' (· ≤ ·) ∧
    ((emitted_sample_times none [3, 3, 8]).map (convert_time 2)).Chain' (· ≤ ·) :=
  ⟨C2_duplicate_suppression.1 none 7 [9] (by decide),
   C2_duplicate_suppression.2.1 none [3, 3, 8]
     (by norm_num [List.chain'_cons, List.chain'_singleton]),
   C2_duplicate_suppression.2.2 2 none [3, 3, 8]
     (by norm_num [List.chain'_cons, List.chain'_singleton])⟩

/-! ## Event interpretation
(`EventInterpretation::divine_from_attrs`, src/main.rs lines 129-170) -/

/-- `SoftwareCounterType` from `linux_perf_event_reader`; only the two
clock counters are distinguished by the converter. -/
inductive SoftwareCounterType where
  | CpuClock
  | TaskClock
  | PageFaults
  | ContextSwitches
  | CpuMigrations
  | PageFaultsMin
  | PageFaultsMaj
  | AlignmentFaults
  | EmulationFaults
  | Dummy
  | BpfOutput
deriving DecidableEq, Repr

/-- `PerfEventType` from `linux_perf_event_reader` (payload of the
non-software variants elided; the converter never inspects it). -/
inductive PerfEventType where
  | Hardware
  | Software (counter : SoftwareCounterType)
  | Tracepoint
  | HardwareCache
  | Raw
  | Breakpoint
deriving DecidableEq, Repr

/-- `SamplingPolicy` from `linux_perf_event_reader`. -/
inductive SamplingPolicy where
  | NoSampling
  | Frequency (freq : Nat)
  | Period (period : Nat)
deriving DecidableEq, Repr

/-- The `sampling_is_time_based` match of
`EventInterpretation::divine_from_attrs` (src/main.rs lines 137-156).
A `panic!` (the `NoSampling` arm, and Rust's division by zero on
`1_000_000_000 / freq`) is modelled as `Except.error`. -/
def sampling_is_time_based (type_ : PerfEventType)
    (policy : SamplingPolicy) : Except Unit (Option Nat) :=
  match type_, policy with
  | _, .NoSampling => .error ()
  | _, .Frequency freq =>
    if freq = 0 then .error () else .ok (some (1000000000 / freq))
  | .Software .CpuClock, .Period period => .ok (some period)
  | .Software .TaskClock, .Period period => .ok (some period)
  | _, .Period _ => .ok none

/-- C5: the sampling-policy classification: `NoSampling` is fatal,
`Frequency(f)` yields `10⁹ / f` nanoseconds (integer division),
`Period(p)` yields `p` nanoseconds exactly for the software CPU-clock
and task-clock event types, and any other `Period` is non-time-based. -/
theorem C5_sampling_policy_classification :
    (∀ t, sampling_is_time_based t .NoSampling = .error ()) ∧
    (∀ t f, 0 < f → sampling_is_time_based t (.Frequency f) =
      .ok (some (1000000000 / f))) ∧
    (∀ p, sampling_is_time_based (.Software .CpuClock) (.Period p) =
        .ok (some p) ∧
      sampling_is_time_based (.Software .TaskClock) (.Period p) =
        .ok (some p)) ∧
    (∀ t p, (∀ c, t = .Software c → c ≠ .CpuClock ∧ c ≠ .TaskClock) →
      sampling_is_time_based t (.Period p) = .ok none) := by
  refine ⟨?_, ?_, ?_, ?_⟩
  · intro t
    cases t
    case Software c => cases c <;> rfl
    all_goals rfl
  · intro t f hf
    have hne : f ≠ 0 := by omega
    cases t
    case Software c => cases c <;> simp [sampling_is_time_based, hne]
    all_goals simp [sampling_is_time_based, hne]
  · intro p; exact ⟨rfl, rfl⟩
  · intro t p ht
    match t with
    | .Hardware | .Tracepoint | .HardwareCache | .Raw | .Breakpoint => rfl
    | .Software c =>
      have hc := ht c rfl
      match c with
      | .CpuClock => exact absurd rfl hc.1
      | .TaskClock => exact absurd rfl hc.2
      | .PageFaults | .ContextSwitches | .CpuMigrations | .PageFaultsMin
      | .PageFaultsMaj | .AlignmentFaults | .EmulationFaults | .Dummy
      | .BpfOutput => rfl

/-- Witness for C5: concrete attribute shapes for each arm. -/
theorem C5_sampling_policy_classification_witness :
    sampling_is_time_based .Hardware .NoSampling = .error () ∧
    sampling_is_time_based .Hardware (.Frequency 1000) =
      .ok (some (1000000000 / 1000)) ∧
    sampling_is_time_based (.Software .CpuClock) (.Period 250000) =
      .ok (some 250000) ∧
    sampling_is_time_based .Hardware (.Period 250000) = .ok none :=
  ⟨C5_sampling_policy_classification.1 .Hardware,
   C5_sampling_policy_classification.2.1 .Hardware 1000 (by decide),
   (C5_sampling_policy_classification.2.2.1 250000).1,
   C5_sampling_policy_classification.2.2.2 .Hardware 250000
     (by intro c h; cases h)⟩

/-! ## Off-CPU sampling configuration and emission
(`Converter::new`, src/main.rs lines 326-330, and
`process_off_cpu_sample_group`, src/main.rs lines 799-830) -/

/-- `DEFAULT_OFF_CPU_SAMPLING_INTERVAL_NS` (src/main.rs line 296). -/
def DEFAULT_OFF_CPU_SAMPLING_INTERVAL_NS : Nat := 1000000

/-- The `(off_cpu_sampling_interval_ns, off_cpu_weight_per_sample)`
pair computed in `Converter::new` from
`interpretation.sampling_is_time_based`. -/
def off_cpu_config (sampling_is_time_based : Option Nat) : Nat × Int :=
  match sampling_is_time_based with
  | some interval_ns => (interval_ns, 1)
  | none => (DEFAULT_OFF_CPU_SAMPLING_INTERVAL_NS, 0)

/-- One sample appended to the profile by `Profile::add_sample`: the
profile timestamp, the frame list (frame payloads abstracted), the CPU
delta in nanoseconds, and the weight. -/
structure SampleOut where
  timestamp : Nat
  frames : List Nat
  cpu_delta_ns : Nat
  weight : Int
deriving DecidableEq, Repr

/-- `process_off_cpu_sample_group` (src/main.rs lines 799-830): emit a
first sample at `begin_timestamp` carrying the metered CPU delta and
`off_cpu_weight_per_sample`, and, when `sample_count > 1`, a rest
sample at `end_timestamp` with CPU delta 0 and weight
`i32::try_from(sample_count - 1).unwrap_or(0) * off_cpu_weight_per_sample`
(an `i32` product). -/
def process_off_cpu_sample_group (begin_timestamp end_timestamp
    sample_count cpu_delta_ns : Nat) (off_cpu_weight_per_sample : Int)
    (off_cpu_stack : List Nat) (reference_ns : Nat) : List SampleOut :=
  ⟨convert_time reference_ns begin_timestamp, off_cpu_stack, cpu_delta_ns,
    off_cpu_weight_per_sample⟩ ::
  (if 1 < sample_count then
    [⟨convert_time reference_ns end_timestamp, off_cpu_stack, 0,
      wrap32 (i32_try_from_or_zero (sample_count - 1) *
        off_cpu_weight_per_sample)⟩]
   else [])

/-- C6: the off-CPU configuration is determined once from the
interpretation: a time-based main event uses its period as the off-CPU
interval with weight 1 per off-CPU sample, otherwise the interval
defaults to 1 ms (1,000,000 ns) with weight 0.  "Every off-CPU sample
carries weight 1" is read per synthesized sample: the emitted group
carries total weight `sample_count` (the rest sample aggregates
`sample_count - 1` of them), and with a non-time-based main event every
emitted off-CPU sample has weight 0. -/
theorem C6_off_cpu_configuration :
    (∀ interval_ns, off_cpu_config (some interval_ns) = (interval_ns, 1)) ∧
    off_cpu_config none = (1000000, 0) ∧
    (∀ b e c cd stack ref s,
      s ∈ process_off_cpu_sample_group b e c cd (off_cpu_config none).2
        stack ref → s.weight = 0) ∧
    (∀ ns b e c cd stack ref, 1 ≤ c → c - 1 ≤ 2147483647 →
      ((process_off_cpu_sample_group b e c cd
          (off_cpu_config (some ns)).2 stack ref).map
        SampleOut.weight).sum = (c : Int)) := by
  refine ⟨fun _ => rfl, rfl, ?_, ?_⟩
  · intro b e c cd stack ref s hs
    unfold process_off_cpu_sample_group at hs
    rcases List.mem_cons.mp hs with h | h
    · rw [h]; rfl
    · by_cases hc : 1 < c
      · simp only [hc, if_true, List.mem_singleton] at h
        rw [h]
        show wrap32 (i32_try_from_or_zero (c - 1) * (off_cpu_config none).2) = 0
        have : (off_cpu_config none).2 = 0 := rfl
        rw [this, mul_zero]
        exact wrap32_eq 0 (by omega) (by omega)
      · simp [hc] at h
  · intro ns b e c cd stack ref hc hfit
    have hw : (off_cpu_config (some ns)).2 = 1 := rfl
    unfold process_off_cpu_sample_group
    by_cases h1 : 1 < c
    · simp only [h1, if_true, List.map_cons, List.map_nil, List.sum_cons,
        List.sum_nil, hw]
      have htf : i32_try_from_or_zero (c - 1) = ((c : Int) - 1) := by
        unfold i32_try_from_or_zero
        simp only [hfit, if_true]
        omega
      rw [mul_one, htf, wrap32_eq ((c : Int) - 1) (by omega) (by omega)]
      omega
    · simp only [h1, if_false, List.map_cons, List.map_nil, List.sum_cons,
        List.sum_nil, hw]
      omega

/-- Witness for C6: with a non-time-based main event both emitted
off-CPU samples weigh 0; with a time-based one, a 3-sample group weighs
3 in total. -/
theorem C6_off_cpu_configuration_witness :
    off_cpu_config (some 250000) = (250000, 1) ∧
    off_cpu_config none = (1000000, 0) ∧
    (process_off_cpu_sample_group 10 40 3 7 (off_cpu_config none).2
        [5] 0).head?.map SampleOut.weight = some 0 ∧
    ((process_off_cpu_sample_group 10 40 3 7
        (off_cpu_config (some 250000)).2 [5] 0).map
      SampleOut.weight).sum = 3 := by
  refine ⟨C6_off_cpu_configuration.1 250000, C6_off_cpu_configuration.2.1,
    ?_, C6_off_cpu_configuration.2.2.2 250000 10 40 3 7 [5] 0
      (by decide) (by decide)⟩
  have h0 := C6_off_cpu_configuration.2.2.1 10 40 3 7 [5] 0
    ⟨10, [5], 7, (off_cpu_config none).2⟩ (List.mem_cons_self _ _)
  decide

/-- C7 as stated is false on the code: for a group whose
`sample_count - 1` exceeds `i32::MAX`, the rest sample's weight is not
`(sample_count − 1) · off_cpu_weight_per_sample` — the failed
`i32::try_from` falls back to 0. -/
theorem C7_counterexample :
    process_off_cpu_sample_group 0 10 2147483649 5 1 [7] 0 =
      [⟨0, [7], 5, 1⟩, ⟨10, [7], 0, 0⟩] ∧
    (0 : Int) ≠ ((2147483649 : Int) - 1) * 1 := by
  constructor
  · decide
  · decide

/-- C7 (amended): for every off-CPU sample group with `count ≥ 1` and
weight-per-sample `w ∈ {0, 1}` (the only values the converter uses),
exactly one sample is emitted at `begin` carrying the metered CPU delta
and weight `w`, and exactly when `count > 1` a second sample at `end`
carrying CPU delta 0 and weight `(count − 1) · w` when `count − 1` fits
in an `i32` and weight 0 otherwise; both samples use the thread's saved
off-CPU stack as frames. -/
theorem C7_emit_off_cpu_group :
    ∀ (b e count cd : Nat) (w : Int) (stack : List Nat) (ref : Nat),
      1 ≤ count → (w = 0 ∨ w = 1) →
      process_off_cpu_sample_group b e count cd w stack ref =
        ⟨convert_time ref b, stack, cd, w⟩ ::
          (if 1 < count then
            [⟨convert_time ref e, stack, 0,
              (if count - 1 ≤ 2147483647 then ((count : Int) - 1) else 0) * w⟩]
           else []) := by
  intro b e count cd w stack ref hc hw
  unfold process_off_cpu_sample_group
  have hwt : wrap32 (i32_try_from_or_zero (count - 1) * w) =
      (if count - 1 ≤ 2147483647 then ((count : Int) - 1) else 0) * w := by
    unfold i32_try_from_or_zero
    by_cases hfit : count - 1 ≤ 2147483647
    · simp only [hfit, if_true]
      have hcast : ((count - 1 : Nat) : Int) = (count : Int) - 1 := by omega
      rw [hcast]
      rcases hw with hw | hw <;> rw [hw] <;> simp only [mul_zero, mul_one]
      · exact wrap32_eq 0 (by omega) (by omega)
      · exact wrap32_eq ((count : Int) - 1) (by omega) (by omega)
    · simp only [hfit, if_false, zero_mul]
      exact wrap32_eq 0 (by omega) (by omega)
  rw [hwt]

/-- Witness for C7 at a concrete group `(begin 10, end 40, count 3)`
with weight 1. -/
theorem C7_emit_off_cpu_group_witness :
    process_off_cpu_sample_group 10 40 3 7 1 [5] 0 =
      ⟨convert_time 0 10, [5], 7, 1⟩ ::
        (if 1 < 3 then
          [⟨convert_time 0 40, [5], 0,
            (if 3 - 1 ≤ 2147483647 then ((3 : Int) - 1) else 0) * 1⟩]
         else []) :=
  C7_emit_off_cpu_group 10 40 3 7 1 [5] 0 (by decide) (Or.inr rfl)

/-! ## List helpers for first-match scans -/

theorem findSome?_exists {α β : Type} (f : α → Option β) (l : List α) (b : β)
    (h : l.findSome? f = some b) : ∃ a ∈ l, f a = some b := by
  induction l with
  | nil => simp [List.findSome?_nil] at h
  | cons x xs ih =>
    rw [List.findSome?_cons] at h
    match hx : f x with
    | some v =>
      rw [hx] at h
      exact ⟨x, List.mem_cons_self x xs, by rw [hx, ← h]⟩
    | none =>
      rw [hx] at h
      obtain ⟨a, ha, hfa⟩ := ih h
      exact ⟨a, List.mem_cons_of_mem x ha, hfa⟩

theorem findSome?_congr {α β : Type} (f g : α → Option β) (l : List α)
    (h : ∀ a ∈ l, f a = g a) : l.findSome? f = l.findSome? g := by
  induction l with
  | nil => rfl
  | cons x xs ih =>
    rw [List.findSome?_cons, List.findSome?_cons,
      h x (List.mem_cons_self x xs),
      ih (fun a ha => h a (List.mem_cons_of_mem x ha))]

theorem findSome?_map_comm {α β γ : Type} (f : α → Option β) (h : β → γ)
    (l : List α) :
    l.findSome? (fun a => (f a).map h) = (l.findSome? f).map h := by
  induction l with
  | nil => rfl
  | cons x xs ih =>
    rw [List.findSome?_cons, List.findSome?_cons]
    match hx : f x with
    | some v => simp [hx]
    | none => simp [hx, ih]

/-! ## Object model for the image-bias computer
(the fields of the `object` crate that `compute_image_bias` reads) -/

/-- `object::SectionKind`; the bias computer only distinguishes `Text`. -/
inductive SectionKind where
  | Text
  | Data
  | ReadOnlyData
  | Uninitialized
  | Other
deriving DecidableEq, Repr

/-- One object section: kind, SVMA (`address()`), and `file_range()`
as `(start_offset, size)`. -/
structure ObjSection where
  kind : SectionKind
  address : Nat
  file_range : Option (Nat × Nat)
deriving DecidableEq, Repr

/-- `object::SegmentKind`; the bias fallback only distinguishes `Load`. -/
inductive SegmentKind where
  | Load
  | Dynamic
  | Other
deriving DecidableEq, Repr

/-- One object segment: kind, raw `p_flags`, SVMA (`address()`, that is
`p_vaddr`), `size()` (that is `p_memsz`), and `file_range()` as
`(p_offset, p_filesz)`. -/
structure ObjSegment where
  kind : SegmentKind
  flags : Nat
  address : Nat
  size : Nat
  file_range : Option (Nat × Nat)
deriving DecidableEq, Repr

/-- The parsed object file, restricted to the fields the converter
reads.  `build_id` is the file's own build ID; `debug_id` is the result
of the external `debug_id_for_object`. -/
structure ObjFile where
  sections : List ObjSection
  segments : List ObjSegment
  is_elf : Bool
  build_id : Option (List Nat)
  debug_id : Option Nat
deriving DecidableEq, Repr

/-- `object::elf::PF_X`. -/
def PF_X : Nat := 1

/-! ## Image-bias computer (`compute_image_bias`, src/main.rs lines
1003-1154) -/

/-- The text-section phase (src/main.rs lines 1015-1056): among
text-kind sections, find the first whose file range lies within the
mapping's file range (u64 comparisons), yielding its
`(section_start_file_offset, section_start_svma)`. -/
def text_section_scan (sections : List ObjSection)
    (mapping_start_file_offset mapping_size : Nat) : Option (Nat × Nat) :=
  (sections.filter (fun s => s.kind == SectionKind.Text)).findSome?
    (fun s =>
      match s.file_range with
      | some (start_offset, size) =>
        if mapping_start_file_offset ≤ start_offset ∧
            wadd start_offset size ≤
              wadd mapping_start_file_offset mapping_size
        then some (start_offset, s.address)
        else none
      | none => none)

/-- The PT_LOAD fallback (src/main.rs lines 1071-1143): scan segments
in order; for a loadable executable segment with a file range, return
`mapping_start_avma - segment_svma` when the file offsets coincide,
else `mapping_start_avma - (segment_svma + (mapping_start_file_offset -
segment_file_offset))` when the mapping's file offset falls in
`[segment_file_offset, segment_file_offset + segment.size())` (all u64
arithmetic). -/
def segment_scan (segments : List ObjSegment)
    (mapping_start_file_offset mapping_start_avma : Nat) : Option Nat :=
  segments.findSome? (fun segment =>
    if segment.kind = SegmentKind.Load ∧ segment.flags &&& PF_X ≠ 0 then
      match segment.file_range with
      | some (segment_file_offset, _segment_file_size) =>
        if mapping_start_file_offset = segment_file_offset then
          some (wsub mapping_start_avma segment.address)
        else if segment_file_offset ≤ mapping_start_file_offset ∧
            mapping_start_file_offset <
              wadd segment_file_offset segment.size then
          some (wsub mapping_start_avma
            (wadd segment.address
              (wsub mapping_start_file_offset segment_file_offset)))
        else none
      | none => none
    else none)

/-- `compute_image_bias` (src/main.rs lines 1003-1154): text-section
phase first; if it fails and the object is ELF, the PT_LOAD fallback;
otherwise none. -/
def compute_image_bias (file : ObjFile)
    (mapping_start_file_offset mapping_start_avma mapping_size : Nat) :
    Option Nat :=
  match text_section_scan file.sections mapping_start_file_offset
      mapping_size with
  | some (section_start_file_offset, section_start_svma) =>
    some (wsub (wadd mapping_start_avma
      (wsub section_start_file_offset mapping_start_file_offset))
      section_start_svma)
  | none =>
    if file.is_elf then
      segment_scan file.segments mapping_start_file_offset
        mapping_start_avma
    else none

/-- The specification's text-section rule, with exact (non-wrapping)
arithmetic: the first text-kind section whose file range lies entirely
within `[file_offset, file_offset + size)`. -/
def first_qualifying_text_section (sections : List ObjSection)
    (moff msize : Nat) : Option (Nat × Nat) :=
  (sections.filter (fun s => s.kind == SectionKind.Text)).findSome?
    (fun s =>
      match s.file_range with
      | some (start_offset, size) =>
        if moff ≤ start_offset ∧ start_offset + size ≤ moff + msize
        then some (start_offset, s.address)
        else none
      | none => none)

/-- A section's u64 fields do not overflow: its file range, when
present, stays below `2^64`. -/
def SectionWF (s : ObjSection) : Prop :=
  match s.file_range with
  | some (start_offset, size) => start_offset + size < U64MOD
  | none => True

/-- A segment's u64 fields do not overflow: its SVMA is a u64 value
and its file offset plus memory size stays below `2^64`. -/
def SegmentWF (seg : ObjSegment) : Prop :=
  seg.address < U64MOD ∧
  match seg.file_range with
  | some (segment_file_offset, _) =>
    segment_file_offset + seg.size < U64MOD
  | none => True

theorem text_section_scan_eq_spec (sections : List ObjSection)
    (moff msize : Nat) (hm : moff + msize < U64MOD)
    (hwf : ∀ s ∈ sections, SectionWF s) :
    text_section_scan sections moff msize =
      first_qualifying_text_section sections moff msize := by
  unfold text_section_scan first_qualifying_text_section
  apply findSome?_congr
  intro s hs
  have hswf : SectionWF s := hwf s (List.mem_of_mem_filter hs)
  match hfr : s.file_range with
  | none => simp
  | some (start_offset, size) =>
    unfold SectionWF at hswf
    rw [hfr] at hswf
    simp only
    rw [wadd_eq start_offset size hswf, wadd_eq moff msize hm]

/-- C3: when some text-kind section's file range lies entirely within
the mapping, `compute_image_bias` returns, for the first such section,
`AVMA + (section_file_offset − mapping_file_offset) − section_SVMA`,
and bias + section_SVMA equals the section's AVMA (the side conditions
say the u64 arithmetic does not overflow or underflow). -/
theorem C3_bias_via_text_section :
    ∀ (file : ObjFile) (moff mavma msize soff svma : Nat),
      moff + msize < U64MOD →
      (∀ s ∈ file.sections, SectionWF s) →
      first_qualifying_text_section file.sections moff msize =
        some (soff, svma) →
      svma ≤ mavma + (soff - moff) →
      mavma + (soff - moff) < U64MOD →
      compute_image_bias file moff mavma msize =
        some (mavma + (soff - moff) - svma) ∧
      (mavma + (soff - moff) - svma) + svma = mavma + (soff - moff) := by
  intro file moff mavma msize soff svma hm hwf hfind hsv hov
  obtain ⟨s, hs, hfs⟩ := findSome?_exists _ _ _ hfind
  have hkey : moff ≤ soff ∧ soff < U64MOD := by
    match hfr : s.file_range with
    | none => rw [hfr] at hfs; simp at hfs
    | some (so, sz) =>
      rw [hfr] at hfs
      by_cases hc : moff ≤ so ∧ so + sz ≤ moff + msize
      · simp only [hc.1, hc.2, and_self, if_true, Option.some.injEq,
          Prod.mk.injEq] at hfs
        obtain ⟨h1, h2⟩ := hfs
        subst h1
        exact ⟨hc.1, by omega⟩
      · simp [hc] at hfs
  have hscan : text_section_scan file.sections moff msize =
      some (soff, svma) := by
    rw [text_section_scan_eq_spec file.sections moff msize hm hwf]
    exact hfind
  constructor
  · unfold compute_image_bias
    rw [hscan]
    show some (wsub (wadd mavma (wsub soff moff)) svma) = _
    rw [wsub_eq soff moff hkey.2 (by omega) hkey.1,
        wadd_eq mavma (soff - moff) hov,
        wsub_eq (mavma + (soff - moff)) svma hov (by omega) hsv]
  · omega

/-- Witness for C3 at a concrete object whose single text section is
fully contained in the mapping. -/
theorem C3_bias_via_text_section_witness :
    compute_image_bias
        ⟨[⟨SectionKind.Text, 4198400, some (1024, 512)⟩], [], true,
          none, none⟩ 1024 2130706432 4096 =
      some (2130706432 + (1024 - 1024) - 4198400) ∧
    (2130706432 + (1024 - 1024) - 4198400) + 4198400 =
      2130706432 + (1024 - 1024) :=
  C3_bias_via_text_section
    ⟨[⟨SectionKind.Text, 4198400, some (1024, 512)⟩], [], true, none,
      none⟩ 1024 2130706432 4096 1024 4198400
    (by decide)
    (by
      intro s hs
      rcases List.mem_singleton.mp hs with rfl
      exact (by decide : (1024 : Nat) + 512 < U64MOD))
    (by decide) (by decide) (by decide)

/-- The outcome of the specification's segment rule: either the
mapping's file offset equals the segment's (direct), or it falls inside
the segment's extent (contained). -/
inductive SegmentHit where
  | direct (svma : Nat)
  | contained (svma segment_file_offset : Nat)
deriving DecidableEq, Repr

/-- The segment fallback as amended: scan loadable executable segments
in order; a segment hits directly when its file offset equals the
mapping's, else by containment when the mapping's file offset falls in
`[segment_file_offset, segment_file_offset + segment_memory_size)`
(exact arithmetic). -/
def first_qualifying_segment (segments : List ObjSegment) (moff : Nat) :
    Option SegmentHit :=
  segments.findSome? (fun seg =>
    if seg.kind = SegmentKind.Load ∧ seg.flags &&& PF_X ≠ 0 then
      match seg.file_range with
      | some (segment_file_offset, _) =>
        if moff = segment_file_offset then
          some (SegmentHit.direct seg.address)
        else if segment_file_offset ≤ moff ∧
            moff < segment_file_offset + seg.size then
          some (SegmentHit.contained seg.address segment_file_offset)
        else none
      | none => none
    else none)

/-- The specification's original segment rule, which bounds the
containment test by the segment's file range (`p_filesz`), as the claim
words it. -/
def first_qualifying_segment_claim (segments : List ObjSegment)
    (moff : Nat) : Option SegmentHit :=
  segments.findSome? (fun seg =>
    if seg.kind = SegmentKind.Load ∧ seg.flags &&& PF_X ≠ 0 then
      match seg.file_range with
      | some (segment_file_offset, file_size) =>
        if moff = segment_file_offset then
          some (SegmentHit.direct seg.address)
        else if segment_file_offset ≤ moff ∧
            moff < segment_file_offset + file_size then
          some (SegmentHit.contained seg.address segment_file_offset)
        else none
      | none => none
    else none)

/-- The bias the code computes for a segment hit (u64 arithmetic). -/
def segment_hit_bias (mavma moff : Nat) : SegmentHit → Nat
  | .direct svma => wsub mavma svma
  | .contained svma segment_file_offset =>
    wsub mavma (wadd svma (wsub moff segment_file_offset))

theorem segment_scan_eq_spec (segments : List ObjSegment)
    (moff mavma : Nat) (hwf : ∀ seg ∈ segments, SegmentWF seg) :
    segment_scan segments moff mavma =
      (first_qualifying_segment segments moff).map
        (segment_hit_bias mavma moff) := by
  unfold segment_scan first_qualifying_segment
  rw [← findSome?_map_comm]
  apply findSome?_congr
  intro seg hseg
  have hwfs := hwf seg hseg
  by_cases hk : seg.kind = SegmentKind.Load ∧ seg.flags &&& PF_X ≠ 0
  · rw [if_pos hk, if_pos hk]
    cases hfr : seg.file_range with
    | none => rfl
    | some pr =>
      obtain ⟨segment_file_offset, fsz⟩ := pr
      have hrange : segment_file_offset + seg.size < U64MOD := by
        unfold SegmentWF at hwfs
        rw [hfr] at hwfs
        exact hwfs.2
      simp only
      by_cases h1 : moff = segment_file_offset
      · rw [if_pos h1, if_pos h1]
        rfl
      · rw [if_neg h1, if_neg h1, wadd_eq segment_file_offset seg.size hrange]
        by_cases h2 : segment_file_offset ≤ moff ∧
            moff < segment_file_offset + seg.size
        · rw [if_pos h2, if_pos h2]
          rfl
        · rw [if_neg h2, if_neg h2]
          rfl
  · rw [if_neg hk, if_neg hk]
    rfl

/-- C4 as stated is false on the code: the containment test of the
PT_LOAD fallback uses the segment's memory size (`p_memsz`), not its
file range (`p_filesz`).  For a mapping at file offset 0x2000 over a
segment with file range [0x1000, 0x1100) but memory size 0x10000, no
segment qualifies under the claim's rule, yet the code returns a
bias. -/
theorem C4_counterexample :
    compute_image_bias
        ⟨[], [⟨SegmentKind.Load, 1, 4198400, 65536, some (4096, 256)⟩],
          true, none, none⟩ 8192 2130706432 4096 = some 2126503936 ∧
    first_qualifying_segment_claim
        [⟨SegmentKind.Load, 1, 4198400, 65536, some (4096, 256)⟩]
        8192 = none ∧
    first_qualifying_text_section ([] : List ObjSection) 8192 4096 =
      none := by
  refine ⟨?_, ?_, ?_⟩ <;> decide

/-- C4 (amended): for an ELF object with no qualifying text-kind
section, the fallback scans loadable executable segments and returns
`mapping_AVMA − segment_SVMA` when a segment's file offset equals the
mapping's file offset; otherwise, when the mapping's file offset lies
within `[segment_file_offset, segment_file_offset +
segment_memory_size)` (the code uses `p_memsz`, not the file range),
`mapping_AVMA − (segment_SVMA + (mapping_file_offset −
segment_file_offset))`; and none when no section or segment qualifies
(side conditions rule out u64 overflow and underflow). -/
theorem C4_bias_via_segments :
    ∀ (file : ObjFile) (moff mavma msize : Nat),
      moff + msize < U64MOD → mavma < U64MOD →
      (∀ s ∈ file.sections, SectionWF s) →
      (∀ seg ∈ file.segments, SegmentWF seg) →
      first_qualifying_text_section file.sections moff msize = none →
      file.is_elf = true →
      ((∀ svma, first_qualifying_segment file.segments moff =
            some (SegmentHit.direct svma) → svma ≤ mavma →
          svma < U64MOD →
          compute_image_bias file moff mavma msize =
            some (mavma - svma)) ∧
       (∀ svma segment_file_offset,
          first_qualifying_segment file.segments moff =
            some (SegmentHit.contained svma segment_file_offset) →
          segment_file_offset ≤ moff →
          svma + (moff - segment_file_offset) < U64MOD →
          svma + (moff - segment_file_offset) ≤ mavma →
          compute_image_bias file moff mavma msize =
            some (mavma - (svma + (moff - segment_file_offset)))) ∧
       (first_qualifying_segment file.segments moff = none →
          compute_image_bias file moff mavma msize = none)) := by
  intro file moff mavma msize hm hav hwfsec hwfseg hnotext helf
  have hscan : text_section_scan file.sections moff msize = none := by
    rw [text_section_scan_eq_spec file.sections moff msize hm hwfsec]
    exact hnotext
  have hbias : compute_image_bias file moff mavma msize =
      segment_scan file.segments moff mavma := by
    unfold compute_image_bias
    rw [hscan, helf]
    simp
  rw [hbias, segment_scan_eq_spec file.segments moff mavma hwfseg]
  refine ⟨?_, ?_, ?_⟩
  · intro svma hhit hle hlt
    rw [hhit]
    show some (wsub mavma svma) = _
    rw [wsub_eq mavma svma hav hlt hle]
  · intro svma segment_file_offset hhit hsegle hsum hle
    rw [hhit]
    show some (wsub mavma (wadd svma (wsub moff segment_file_offset))) = _
    rw [wsub_eq moff segment_file_offset (by omega) (by omega) hsegle,
        wadd_eq svma (moff - segment_file_offset) hsum,
        wsub_eq mavma (svma + (moff - segment_file_offset)) hav
          (by omega) hle]
  · intro hnone
    rw [hnone]
    rfl

/-- Witness for C4: the direct-match case at a concrete ELF object with
one executable PT_LOAD segment whose file offset equals the
mapping's. -/
theorem C4_bias_via_segments_witness :
    compute_image_bias
        ⟨[], [⟨SegmentKind.Load, 1, 4198400, 65536, some (4096, 256)⟩],
          true, none, none⟩ 4096 2130706432 4096 =
      some (2130706432 - 4198400) :=
  (C4_bias_via_segments
    ⟨[], [⟨SegmentKind.Load, 1, 4198400, 65536, some (4096, 256)⟩],
      true, none, none⟩ 4096 2130706432 4096
    (by decide) (by decide)
    (by intro s hs; simp at hs)
    (by
      intro seg hseg
      rcases List.mem_singleton.mp hseg with rfl
      exact ⟨by decide, by decide⟩)
    (by decide) rfl).1 4198400 (by decide) (by decide) (by decide)

/-! ## Mmap handling
(`Converter::handle_mmap`, src/main.rs lines 544-604, and
`Converter::handle_mmap2`, src/main.rs lines 606-639) -/

/-- The library descriptor `handle_mmap` pushes onto the global
`kernel_modules` list for pid = -1. -/
structure KernelLib where
  base_avma : Nat
  avma_end : Nat
  build_id : Option (List Nat)
  path : String
  debug_path : String
  name : String
deriving DecidableEq, Repr

/-- An `MmapRecord`, together with the results of the two external
lookups the handler performs on it: `dso_key` is
`DsoKey::detect(path, cpu_mode)` (with the key's display name), and
`build_id_entry` is `self.build_ids.get(dso_key)` — the recorded
build-ID bytes and the build-ID table's (possibly better) path. -/
structure MmapRecord where
  pid : Int
  is_executable : Bool
  address : Nat
  length : Nat
  page_offset : Nat
  path : String
  dso_key : Option String
  build_id_entry : Option (List Nat × String)
deriving DecidableEq, Repr

/-- An `Mmap2Record`, with the same external lookups:
`file_id_build_id` is the payload of `Mmap2FileId::BuildId`;
`build_ids_lookup` is `self.build_ids.get(dso_key)`'s build ID, used
on the `InodeAndVersion` path. -/
structure Mmap2Record where
  pid : Int
  protection : Nat
  address : Nat
  length : Nat
  page_offset : Nat
  path : String
  file_id_build_id : Option (List Nat)
  dso_key : Option String
  build_ids_lookup : Option (List Nat)
deriving DecidableEq, Repr

/-- What a mapping record leads to: nothing, a push onto the global
kernel-modules list, or a run of `add_module_to_unwinder` attached to
the process with the given pid. -/
inductive MmapAction where
  | ignored
  | kernel_module (lib : KernelLib)
  | loader (pid : Int) (build_id : Option (List Nat))
deriving DecidableEq, Repr

/-- Whether an action appends to the kernel-modules list. -/
def MmapAction.isKernelModule : MmapAction → Bool
  | .kernel_module _ => true
  | _ => false

/-- The path `handle_mmap` uses: the build-ID table's path when the DSO
has a build-ID entry (src/main.rs line 563), else the record's. -/
def mmap_effective_path (e : MmapRecord) : String :=
  match e.build_id_entry with
  | some (_, build_id_path) => build_id_path
  | none => e.path

/-- The build ID `handle_mmap` uses. -/
def mmap_build_id (e : MmapRecord) : Option (List Nat) :=
  match e.build_id_entry with
  | some (build_id, _) => some build_id
  | none => none

/-- `str.starts_with(pre)`, character for character. -/
def string_starts_with (s pre : String) : Bool :=
  pre.data.isPrefixOf s.data

/-- The kernel debug-path guess (src/main.rs lines 569-575): when the
path starts with `[kernel.kallsyms]` and the OS release is known, guess
`/usr/lib/debug/boot/vmlinux-<release>`. -/
def kallsyms_debug_path (linux_version : Option String)
    (path : String) : String :=
  if string_starts_with path "[kernel.kallsyms]" then
    match linux_version with
    | some v => "/usr/lib/debug/boot/vmlinux-" ++ v
    | none => path
  else path

/-- `Converter::handle_mmap` (src/main.rs lines 544-604). -/
def handle_mmap (linux_version : Option String) (e : MmapRecord) :
    MmapAction :=
  if ¬ e.is_executable then .ignored
  else
    match e.dso_key with
    | none => .ignored
    | some dso_name =>
      if e.pid = -1 then
        .kernel_module
          ⟨e.address, wadd e.address e.length, mmap_build_id e,
           mmap_effective_path e,
           kallsyms_debug_path linux_version (mmap_effective_path e),
           dso_name⟩
      else .loader e.pid (mmap_build_id e)

/-- `PROT_EXEC` (src/main.rs line 607). -/
def PROT_EXEC : Nat := 4

/-- `Converter::handle_mmap2` (src/main.rs lines 606-639): there is no
pid = -1 branch — every executable mapping goes to the module
loader. -/
def handle_mmap2 (e : Mmap2Record) : MmapAction :=
  if e.protection &&& PROT_EXEC = 0 then .ignored
  else
    match e.file_id_build_id with
    | some build_id => .loader e.pid (some build_id)
    | none =>
      match e.dso_key with
      | none => .ignored
      | some _ => .loader e.pid e.build_ids_lookup

/-- C8 as stated is false on the code: an executable `Mmap2` record
with pid = -1 is run through the module loader and attached to a
process named `<-1>`; `handle_mmap2` has no kernel-modules branch. -/
theorem C8_counterexample :
    handle_mmap2
        ⟨-1, 4, 0, 4096, 0, "[kernel.kallsyms]_text", some [1],
          some "[kernel.kallsyms]", none⟩ =
      MmapAction.loader (-1) (some [1]) ∧
    (handle_mmap2
        ⟨-1, 4, 0, 4096, 0, "[kernel.kallsyms]_text", some [1],
          some "[kernel.kallsyms]", none⟩).isKernelModule = false := by
  constructor <;> rfl

/-- C8 (amended): only `Mmap` records with pid = -1 append a library
descriptor to the global kernel-modules list, with the debug path
guessed as `/usr/lib/debug/boot/vmlinux-<release>` when the effective
path starts with `[kernel.kallsyms]` and the release is known; `Mmap`
records with pid ≠ -1 run the module loader on the owning process; and
`Mmap2` records always either run the module loader or are ignored —
never the kernel-modules list, even for pid = -1. -/
theorem C8_kernel_module_routing :
    (∀ (lv : Option String) (e : MmapRecord) (dso_name : String),
      e.is_executable = true → e.dso_key = some dso_name → e.pid = -1 →
      handle_mmap lv e = MmapAction.kernel_module
        ⟨e.address, wadd e.address e.length, mmap_build_id e,
         mmap_effective_path e,
         kallsyms_debug_path lv (mmap_effective_path e), dso_name⟩) ∧
    (∀ (v : String) (path : String),
      string_starts_with path "[kernel.kallsyms]" = true →
      kallsyms_debug_path (some v) path =
        "/usr/lib/debug/boot/vmlinux-" ++ v) ∧
    (∀ (lv : Option String) (e : MmapRecord) (dso_name : String),
      e.is_executable = true → e.dso_key = some dso_name → e.pid ≠ -1 →
      handle_mmap lv e = MmapAction.loader e.pid (mmap_build_id e)) ∧
    (∀ e : Mmap2Record, (handle_mmap2 e).isKernelModule = false) := by
  refine ⟨?_, ?_, ?_, ?_⟩
  · intro lv e dso_name hexec hdso hpid
    simp [handle_mmap, hexec, hdso, hpid]
  · intro v path hstart
    unfold kallsyms_debug_path
    rw [if_pos hstart]
  · intro lv e dso_name hexec hdso hpid
    simp [handle_mmap, hexec, hdso, hpid]
  · intro e
    unfold handle_mmap2
    by_cases hp : e.protection &&& PROT_EXEC = 0
    · rw [if_pos hp]; rfl
    · rw [if_neg hp]
      match e.file_id_build_id with
      | some _ => rfl
      | none =>
        match e.dso_key with
        | some _ => rfl
        | none => rfl

/-- Witness for C8 at a concrete kernel `Mmap` record with a known OS
release, a user `Mmap` record, and an `Mmap2` record. -/
theorem C8_kernel_module_routing_witness :
    handle_mmap (some "6.1.0")
        ⟨-1, true, 1024, 4096, 0, "[kernel.kallsyms]_text", some "k",
          none⟩ =
      MmapAction.kernel_module
        ⟨1024, wadd 1024 4096,
         mmap_build_id ⟨-1, true, 1024, 4096, 0, "[kernel.kallsyms]_text",
           some "k", none⟩,
         mmap_effective_path ⟨-1, true, 1024, 4096, 0,
           "[kernel.kallsyms]_text", some "k", none⟩,
         kallsyms_debug_path (some "6.1.0")
           (mmap_effective_path ⟨-1, true, 1024, 4096, 0,
             "[kernel.kallsyms]_text", some "k", none⟩), "k"⟩ ∧
    kallsyms_debug_path (some "6.1.0") "[kernel.kallsyms]_text" =
      "/usr/lib/debug/boot/vmlinux-" ++ "6.1.0" ∧
    handle_mmap none ⟨77, true, 1024, 4096, 0, "/bin/sh", some "sh",
        none⟩ =
      MmapAction.loader 77 (mmap_build_id ⟨77, true, 1024, 4096, 0,
        "/bin/sh", some "sh", none⟩) ∧
    (handle_mmap2 ⟨-1, 4, 0, 4096, 0, "x", some [2], none, none⟩
      ).isKernelModule = false :=
  ⟨C8_kernel_module_routing.1 (some "6.1.0") _ "k" rfl rfl rfl,
   C8_kernel_module_routing.2.1 "6.1.0" "[kernel.kallsyms]_text"
     (by decide),
   C8_kernel_module_routing.2.2.1 none _ "sh" rfl rfl (by decide),
   C8_kernel_module_routing.2.2.2 _⟩

/-! ## Module loader (`add_module_to_unwinder`, src/main.rs lines
1164-1342) -/

/-- How the emitted descriptor's debug ID was produced. -/
inductive DebugIdModel where
  | fromBuildId (id : List Nat)
  | defaultId
  | fromObject (d : Nat)
deriving DecidableEq, Repr

/-- The library descriptor `add_module_to_unwinder` returns, projected
onto the fields the claims inspect (code ID, names and debug path
elided). -/
structure LibraryInfo where
  base_avma : Nat
  avma_start : Nat
  avma_end : Nat
  debug_id : DebugIdModel
  path : String
deriving DecidableEq, Repr

/-- `add_module_to_unwinder` (src/main.rs lines 1164-1342).  `file` is
`some f` when opening (`open_file_with_fallback`), memory-mapping and
parsing the module file all succeeded, and `none` otherwise.  With a
file: an expected build ID that the file misses or contradicts aborts
the module; the bias (`compute_image_bias`) and the external
`debug_id_for_object` both propagate failure through `?`.  Without a
file: the fallback descriptor with base AVMA
`mapping_start_avma - mapping_start_file_offset` and the debug ID
derived from the build ID when present (`unwrap_or_default`); the
`path.starts_with('[')` test in the source only guards a commented-out
diagnostic and does not affect the result. -/
def add_module_to_unwinder (path : String)
    (mapping_start_file_offset mapping_start_avma mapping_size : Nat)
    (build_id : Option (List Nat)) (file : Option ObjFile) :
    Option LibraryInfo :=
  let avma_end := wadd mapping_start_avma mapping_size
  match file with
  | some f =>
    let verified : Bool :=
      match build_id, f.build_id with
      | some expected, some file_build_id => file_build_id == expected
      | some _, none => false
      | none, _ => true
    if verified then
      (compute_image_bias f mapping_start_file_offset mapping_start_avma
        mapping_size).bind (fun base_avma =>
          f.debug_id.map (fun d =>
            ⟨base_avma, mapping_start_avma, avma_end,
             DebugIdModel.fromObject d, path⟩))
    else none
  | none =>
    some ⟨wsub mapping_start_avma mapping_start_file_offset,
      mapping_start_avma, avma_end,
      (match build_id with
       | some id => DebugIdModel.fromBuildId id
       | none => DebugIdModel.defaultId), path⟩

/-- C9 as stated is false on the code: for an unopenable module the
minimal descriptor is produced even for a pseudo-path (one starting
with `[`) — the pseudo-path test in the source only guards a
commented-out diagnostic. -/
theorem C9_counterexample :
    add_module_to_unwinder "[vdso]" 0 140000000000 4096 none none =
      some ⟨140000000000, 140000000000, 140000004096,
        DebugIdModel.defaultId, "[vdso]"⟩ ∧
    string_starts_with "[vdso]" "[" = true := by
  constructor <;> decide

/-- C9 (amended): for every module whose file cannot be opened —
pseudo-path or not — the loader emits the minimal descriptor with base
AVMA `mapping_AVMA − mapping_file_offset` and debug ID derived from the
build ID when present (side conditions rule out u64 overflow and
underflow). -/
theorem C9_unopenable_fallback :
    ∀ (path : String) (moff mavma msize : Nat)
      (build_id : Option (List Nat)),
      moff ≤ mavma → mavma < U64MOD → mavma + msize < U64MOD →
      add_module_to_unwinder path moff mavma msize build_id none =
        some ⟨mavma - moff, mavma, mavma + msize,
          (match build_id with
           | some id => DebugIdModel.fromBuildId id
           | none => DebugIdModel.defaultId), path⟩ := by
  intro path moff mavma msize build_id hle hav hsum
  unfold add_module_to_unwinder
  rw [wsub_eq mavma moff hav (by omega) hle,
    wadd_eq mavma msize hsum]

/-- Witness for C9 at a concrete unopenable module with a build ID. -/
theorem C9_unopenable_fallback_witness :
    add_module_to_unwinder "/usr/lib/libm.so" 4096 140000000000 8192
        (some [7, 7]) none =
      some ⟨140000000000 - 4096, 140000000000, 140000000000 + 8192,
        DebugIdModel.fromBuildId [7, 7], "/usr/lib/libm.so"⟩ :=
  C9_unopenable_fallback "/usr/lib/libm.so" 4096 140000000000 8192
    (some [7, 7]) (by decide) (by decide) (by decide)

/-! ## Exec Comm timestamps
(`Converter::handle_thread_name_update`, src/main.rs lines 723-744, and
`Converter::handle_sample`, src/main.rs lines 360-366) -/

/-- The end-timestamp selection for an exec Comm record (src/main.rs
lines 729-732): a missing or zero record timestamp falls back to the
converter's `current_sample_time`. -/
def comm_end_timestamp (timestamp : Option Nat)
    (current_sample_time : Nat) : Nat :=
  match timestamp with
  | some 0 | none => current_sample_time
  | some ts => ts

/-- `current_sample_time` after handling a sequence of sample
timestamps: initialized to `first_sample_time` (src/main.rs line 342)
and overwritten by every handled sample (line 366, before the
duplicate check, so dropped duplicates also update it). -/
def current_sample_time_after (first_sample_time : Nat)
    (samples : List Nat) : Nat :=
  samples.foldl (fun _ t => t) first_sample_time

/-- C10: an exec Comm record whose timestamp is absent or zero ends the
prior thread (and process) at the converter's current sample time — the
timestamp of the most recently handled sample, initially the first
sample time — and only a nonzero record timestamp is used directly. -/
theorem C10_exec_comm_timestamp :
    (∀ cst, comm_end_timestamp none cst = cst) ∧
    (∀ cst, comm_end_timestamp (some 0) cst = cst) ∧
    (∀ ts cst, ts ≠ 0 → comm_end_timestamp (some ts) cst = ts) ∧
    (∀ first, current_sample_time_after first [] = first) ∧
    (∀ first (l : List Nat) (t : Nat),
      current_sample_time_after first (l ++ [t]) = t) := by
  refine ⟨fun _ => rfl, fun _ => rfl, ?_, fun _ => rfl, ?_⟩
  · intro ts cst hts
    match ts with
    | 0 => exact absurd rfl hts
    | Nat.succ n => rfl
  · intro first l t
    unfold current_sample_time_after
    rw [List.foldl_append]
    rfl

/-- Witness for C10: a zero-timestamp exec Comm after samples at 3 and
9 ends the prior thread at 9; a nonzero record timestamp 5 is used
directly. -/
theorem C10_exec_comm_timestamp_witness :
    comm_end_timestamp none 9 = 9 ∧
    comm_end_timestamp (some 0) 9 = 9 ∧
    comm_end_timestamp (some 5) 9 = 5 ∧
    current_sample_time_after 3 [] = 3 ∧
    current_sample_time_after 3 ([3] ++ [9]) = 9 :=
  ⟨C10_exec_comm_timestamp.1 9, C10_exec_comm_timestamp.2.1 9,
   C10_exec_comm_timestamp.2.2.1 5 9 (by decide),
   C10_exec_comm_timestamp.2.2.2.1 3,
   C10_exec_comm_timestamp.2.2.2.2 3 [3] 9⟩

end PerfConvert
